import Mathlib

/-!
Verification of the span-lifecycle core of `ttmp/2025-04-14/jaeger-example.py`.

The script wires the OpenTelemetry SDK to a Jaeger OTLP collector, performs one
outbound HTTP call under a child span, and records events on a root span.  The
span-lifecycle manager itself (span creation, attribute/event mutation, status
transitions, scoped acquisition, context propagation) lives in the tracing SDK,
which is not part of this repository; the specification defines that manager at
design level, so those operations are modelled here from the spec's words.  The
two script functions `say_hello` and `main` are embedded from the source over
that model, with the HTTP call treated as an external collaborator whose
outcome (a response, or a raised error) is a parameter.

Python strings are modelled as lists of characters (a Python `str` is a
sequence of code points, and `result[:100]` slices code points).
-/

namespace JaegerExample

/-- Attribute values: the small closed set of scalar variants the spec fixes
for span attributes (string, integer, boolean; no float is ever used by the
script, so the float variant is omitted). -/
inductive Value where
  | str (s : List Char)
  | int (i : Int)
  | bool (b : Bool)
deriving DecidableEq, Repr

/-- Span status: UNSET, OK or ERROR. -/
inductive StatusCode where
  | unset
  | ok
  | error
deriving DecidableEq, Repr

/-- Modelled from the spec: the Span Context, the externally propagatable
identity of a span — trace identifier, span identifier and sampling flag.
Immutable once created. -/
structure SpanContext where
  traceId : Nat
  spanId : Nat
  sampled : Bool
deriving DecidableEq, Repr

/-- A timestamped span event: a name with an optional attribute mapping.
(Wall-clock timestamps are external input and carry no information the claims
touch, so they are not modelled.) -/
structure Event where
  name : String
  attrs : List (String × Value)
deriving DecidableEq, Repr

/-- Modelled from the spec: a span — one timed unit of work, with a name, a
context, a weak parent reference, a status, an attribute mapping (keys unique,
last write wins), an ordered event sequence, and an ended flag standing for
the terminal ENDED lifecycle state. -/
structure Span where
  name : String
  ctx : SpanContext
  parent : Option SpanContext
  status : StatusCode
  attrs : List (String × Value)
  events : List Event
  ended : Bool
deriving DecidableEq, Repr

/-- A raised error as the tracing core observes it: its type name and its
message (the only parts record_exception serialises that the claims mention). -/
structure ExcInfo where
  excType : String
  msg : String
deriving DecidableEq, Repr

/-- The outcome of the external HTTP collaborator on success: a status code
and a body text. -/
structure Response where
  status_code : Int
  text : List Char
deriving DecidableEq, Repr

/-- Modelled from the spec: set_attribute mutates the span's attribute mapping
(keys unique, last write wins); a no-op if the span is already closed (never
raises). -/
def set_attribute (sp : Span) (key : String) (v : Value) : Span :=
  if sp.ended then sp
  else { sp with attrs := (sp.attrs.filter fun kv => kv.1 != key) ++ [(key, v)] }

/-- Modelled from the spec: add_event appends an event; same closed-span no-op
policy as set_attribute. -/
def add_event (sp : Span) (name : String) (attrs : List (String × Value)) : Span :=
  if sp.ended then sp
  else { sp with events := sp.events ++ [⟨name, attrs⟩] }

/-- The structured event record_exception appends: error type and message. -/
def exceptionEvent (e : ExcInfo) : Event :=
  ⟨"exception", [("exception.type", .str e.excType.data),
                 ("exception.message", .str e.msg.data)]⟩

/-- Modelled from the spec: record_exception appends a structured event
capturing error type and message; it does not itself change status. -/
def record_exception (sp : Span) (e : ExcInfo) : Span :=
  if sp.ended then sp
  else { sp with events := sp.events ++ [exceptionEvent e] }

/-- Modelled from the spec: set_status enforces the monotonic status rule —
only UNSET may change (to OK or to ERROR); a non-UNSET status is never
overwritten, so ERROR can never be downgraded; ENDED spans accept no
transition. -/
def set_status (sp : Span) (st : StatusCode) : Span :=
  if sp.ended then sp
  else
    match sp.status with
    | .unset => { sp with status := st }
    | _ => sp

/-- Modelled from the spec: end_span freezes the span; idempotent — ending an
already-ended span is a no-op. -/
def end_span (sp : Span) : Span :=
  if sp.ended then sp else { sp with ended := true }

/-- Modelled from the spec: create_root_span starts a fresh span with no
parent; the fresh trace identifier, span identifier and sampling decision are
inputs chosen by the identifier generator (an external collaborator). -/
def create_root_span (name : String) (tid sid : Nat) (sampled : Bool) : Span :=
  { name := name, ctx := ⟨tid, sid, sampled⟩, parent := none,
    status := .unset, attrs := [], events := [], ended := false }

/-- Modelled from the spec: create_child_span forces parent = the currently
active span; the child inherits the parent's trace identifier and sampling
flag and receives a fresh span identifier. -/
def create_child_span (name : String) (parent : Span) (sid : Nat) : Span :=
  { name := name, ctx := ⟨parent.ctx.traceId, sid, parent.ctx.sampled⟩,
    parent := some parent.ctx,
    status := .unset, attrs := [], events := [], ended := false }

/-- Runs a work function against an already-created span and closes the span
on every exit path.  The work function receives the active span and returns
its outcome (a value, or a raised error) together with the span as it left it. -/
def run_scoped {T : Type} (sp0 : Span) (work : Span → Except ExcInfo T × Span) :
    Except ExcInfo T × Span :=
  match work sp0 with
  | (.ok v, sp1) => (.ok v, end_span sp1)
  | (.error e, sp1) =>
      (.error e, end_span (set_status (record_exception sp1 e) .error))

/-- The span scoped_span creates: a child of the given parent when one is
active, a root span otherwise. -/
def initial_span (name : String) (parent : Option Span) (tid sid : Nat)
    (sampled : Bool) : Span :=
  match parent with
  | some p => create_child_span name p sid
  | none => create_root_span name tid sid sampled

/-- Modelled from the spec: scoped_span — creates the span (a child of the
given parent when one is active, a root span otherwise), runs the work with
that span active, and guarantees end_span on every exit path; if the work
raises, the manager calls record_exception then set_status(ERROR) before
closing, and re-raises the original error unchanged. -/
def scoped_span {T : Type} (name : String) (parent : Option Span)
    (tid sid : Nat) (sampled : Bool) (work : Span → Except ExcInfo T × Span) :
    Except ExcInfo T × Span :=
  run_scoped (initial_span name parent tid sid sampled) work

/-- Lowercase hex digit for a value below 16: 0-9 then a-f. -/
def hexChar (n : Nat) : Char :=
  if n < 10 then Char.ofNat (n + 48) else Char.ofNat (n + 87)

/-- Numeric value of a lowercase hex digit, none for any other character. -/
def hexVal (c : Char) : Option Nat :=
  if 48 ≤ c.toNat ∧ c.toNat ≤ 57 then some (c.toNat - 48)
  else if 97 ≤ c.toNat ∧ c.toNat ≤ 102 then some (c.toNat - 87)
  else none

/-- Fixed-width big-endian hex rendering of a natural number. -/
def toHexFixed : Nat → Nat → List Char
  | 0, _ => []
  | w + 1, n => toHexFixed w (n / 16) ++ [hexChar (n % 16)]

/-- Parses a big-endian list of hex digits; none if any character is not a
lowercase hex digit. -/
def fromHexDigits (cs : List Char) : Option Nat :=
  cs.foldl
    (fun acc c =>
      match acc, hexVal c with
      | some a, some v => some (a * 16 + v)
      | _, _ => none)
    (some 0)

/-- The traceparent-shaped wire value: version 00, 32 hex digits of trace id,
16 hex digits of span id, and a flags byte whose low bit is the sampling
flag. -/
def encodeTraceparent (c : SpanContext) : List Char :=
  ['0', '0', '-'] ++ toHexFixed 32 c.traceId ++ ['-'] ++ toHexFixed 16 c.spanId
    ++ ['-'] ++ (if c.sampled then ['0', '1'] else ['0', '0'])

/-- Modelled from the spec: propagate_context serialises the span's Span
Context into a transport-agnostic header mapping carrying one
traceparent-shaped value. -/
def propagate_context (sp : Span) : List (String × List Char) :=
  [("traceparent", encodeTraceparent sp.ctx)]

/-- Parses a traceparent value back into a Span Context; none on any
malformed input. -/
def decodeTraceparent (cs : List Char) : Option SpanContext :=
  match cs with
  | '0' :: '0' :: '-' :: rest =>
      match fromHexDigits (rest.take 32), rest.drop 32 with
      | some tid, '-' :: rest2 =>
          match fromHexDigits (rest2.take 16), rest2.drop 16 with
          | some sid, ['-', f1, f2] =>
              match fromHexDigits [f1, f2] with
              | some fl => some ⟨tid, sid, fl % 2 == 1⟩
              | none => none
          | _, _ => none
      | _, _ => none
  | _ => none

/-- Modelled from the spec: extract_context — the inverse operation; returns
none if the headers carry no valid propagated context, and never raises on
malformed input. -/
def extract_context (headers : List (String × List Char)) : Option SpanContext :=
  match headers.lookup "traceparent" with
  | some v => decodeTraceparent v
  | none => none

/-- Looks an attribute up in a span's mapping (keys are unique, so the first
match is the binding). -/
def lookupAttr (sp : Span) (key : String) : Option Value :=
  sp.attrs.lookup key

/-- Embedding of `say_hello` (jaeger-example.py lines 37-56): opens the
"say_hello" child span, sets the HTTP_METHOD, HTTP_URL and span.kind
attributes, injects propagation headers, performs the HTTP request (its
outcome `http` is external input), on success sets HTTP_STATUS_CODE and
returns the body text, and on failure records the exception, sets ERROR
status and re-raises. -/
def say_hello (parent : Span) (sid : Nat) (http : Except ExcInfo Response) :
    Except ExcInfo (List Char) × Span :=
  scoped_span "say_hello" (some parent) 0 sid parent.ctx.sampled fun sp =>
    let sp := set_attribute sp "http.method" (.str "GET".data)
    let sp := set_attribute sp "http.url" (.str "https://www.jaegertracing.io/".data)
    let sp := set_attribute sp "span.kind" (.str "client".data)
    let _headers := propagate_context sp
    match http with
    | .ok response =>
        let sp := set_attribute sp "http.status_code" (.int response.status_code)
        (.ok response.text, sp)
    | .error e =>
        (.error e, set_status (record_exception sp e) .error)

/-- Embedding of `main` (jaeger-example.py lines 59-76): opens the
"main_process" root span, adds the "Starting application" event, calls
say_hello, on success adds the "Request successful" event carrying the first
100 characters of the result followed by "...", on failure records the
exception and sets ERROR status without re-raising, and always adds the
"Finished application" event.  The root span's identifiers and the child's
span identifier are inputs from the identifier generator; the two
time.sleep calls have no observable effect on the trace and are not
modelled. -/
def main_run (tid sid1 sid2 : Nat) (http : Except ExcInfo Response) :
    Except ExcInfo Unit × Span :=
  scoped_span "main_process" none tid sid1 true fun sp =>
    let sp := add_event sp "Starting application" []
    let result := say_hello sp sid2 http
    let sp :=
      match result.1 with
      | .ok text =>
          add_event sp "Request successful"
            [("value", .str (text.take 100 ++ "...".data))]
      | .error e => set_status (record_exception sp e) .error
    let sp := add_event sp "Finished application" []
    (.ok (), sp)

/-- A concrete error for concrete evaluations: a ValueError carrying the
message "boom". -/
def boomExc : ExcInfo := ⟨"ValueError", "boom"⟩

/-- A work function that immediately raises boomExc, leaving the span as it
received it. -/
def boomWork : Span → Except ExcInfo String × Span :=
  fun sp => (Except.error boomExc, sp)

/-- A work function that immediately returns "ok", leaving the span as it
received it. -/
def okWork : Span → Except ExcInfo String × Span :=
  fun sp => (Except.ok "ok", sp)

/-- The concrete root span scoped_span creates for the concrete evaluations
below. -/
def rootSpanW : Span := initial_span "main" none 1 2 true

/-- A concrete already-ended span for concrete evaluations. -/
def endedSpanW : Span :=
  { name := "done", ctx := ⟨1, 2, true⟩, parent := none,
    status := .ok, attrs := [("k", .int 0)], events := [⟨"e", []⟩],
    ended := true }

theorem toHexFixed_length (w : Nat) : ∀ n, (toHexFixed w n).length = w := by
  induction w with
  | zero => intro n; rfl
  | succ w ih => intro n; simp [toHexFixed, ih]

theorem hexVal_hexChar {n : Nat} (h : n < 16) : hexVal (hexChar n) = some n := by
  interval_cases n <;> decide

theorem fromHexDigits_concat (l : List Char) (c : Char) :
    fromHexDigits (l ++ [c])
      = match fromHexDigits l, hexVal c with
        | some a, some v => some (a * 16 + v)
        | _, _ => none := by
  simp [fromHexDigits, List.foldl_append]

theorem fromHexDigits_toHexFixed (w : Nat) :
    ∀ n, fromHexDigits (toHexFixed w n) = some (n % 16 ^ w) := by
  induction w with
  | zero => intro n; simp [toHexFixed, fromHexDigits, Nat.mod_one]
  | succ w ih =>
    intro n
    have e : n % 16 ^ (w + 1) = n % 16 + 16 * (n / 16 % 16 ^ w) := by
      rw [pow_succ, mul_comm, Nat.mod_mul]
    simp only [toHexFixed, fromHexDigits_concat, ih,
      hexVal_hexChar (Nat.mod_lt n (by norm_num)), e]
    congr 1
    ring

theorem decodeTraceparent_encodeTraceparent (c : SpanContext)
    (h1 : c.traceId < 16 ^ 32) (h2 : c.spanId < 16 ^ 16) :
    decodeTraceparent (encodeTraceparent c) = some c := by
  obtain ⟨tid, sid, sampled⟩ := c
  simp only at h1 h2
  have ht := toHexFixed_length 32 tid
  have hs := toHexFixed_length 16 sid
  cases sampled
  case false =>
    have e1 : encodeTraceparent ⟨tid, sid, false⟩
        = '0' :: '0' :: '-' :: (toHexFixed 32 tid ++ '-' ::
            (toHexFixed 16 sid ++ ['-', '0', '0'])) := by
      simp [encodeTraceparent, List.append_assoc]
    rw [e1]
    simp only [decodeTraceparent]
    rw [List.take_left' ht, List.drop_left' ht, fromHexDigits_toHexFixed,
      Nat.mod_eq_of_lt h1]
    simp only
    rw [List.take_left' hs, List.drop_left' hs, fromHexDigits_toHexFixed,
      Nat.mod_eq_of_lt h2]
    rfl
  case true =>
    have e1 : encodeTraceparent ⟨tid, sid, true⟩
        = '0' :: '0' :: '-' :: (toHexFixed 32 tid ++ '-' ::
            (toHexFixed 16 sid ++ ['-', '0', '1'])) := by
      simp [encodeTraceparent, List.append_assoc]
    rw [e1]
    simp only [decodeTraceparent]
    rw [List.take_left' ht, List.drop_left' ht, fromHexDigits_toHexFixed,
      Nat.mod_eq_of_lt h1]
    simp only
    rw [List.take_left' hs, List.drop_left' hs, fromHexDigits_toHexFixed,
      Nat.mod_eq_of_lt h2]
    rfl

/-- C2: for every span whose trace identifier fits in 128 bits and whose span
identifier fits in 64 bits (the widths the traceparent wire format carries),
extracting a context from the header mapping produced by propagate_context on
that span yields exactly the original span's Span Context — same trace
identifier, span identifier and sampling flag. -/
theorem extract_context_propagate_context (sp : Span)
    (h1 : sp.ctx.traceId < 16 ^ 32) (h2 : sp.ctx.spanId < 16 ^ 16) :
    extract_context (propagate_context sp) = some sp.ctx := by
  have e : extract_context (propagate_context sp)
      = decodeTraceparent (encodeTraceparent sp.ctx) := by
    simp [extract_context, propagate_context]
  rw [e, decodeTraceparent_encodeTraceparent sp.ctx h1 h2]

/-- C2, evaluated: the round trip at the concrete root span used by the
concrete evaluations. -/
theorem extract_context_propagate_context_witness :
    rootSpanW.ctx.traceId < 16 ^ 32 ∧ rootSpanW.ctx.spanId < 16 ^ 16
      ∧ extract_context (propagate_context rootSpanW) = some rootSpanW.ctx :=
  ⟨by norm_num [rootSpanW, initial_span, create_root_span],
   by norm_num [rootSpanW, initial_span, create_root_span],
   extract_context_propagate_context rootSpanW
     (by norm_num [rootSpanW, initial_span, create_root_span])
     (by norm_num [rootSpanW, initial_span, create_root_span])⟩

/-- C1: whenever the work run under scoped_span raises an error e — leaving
the managed span not yet ended and not marked OK — the manager re-raises
exactly e to the caller, appends exactly one exception event (via
record_exception), sets the span status to ERROR, and ends the span. -/
theorem scoped_span_error_observed {T : Type} (name : String)
    (parent : Option Span) (tid sid : Nat) (sm : Bool)
    (work : Span → Except ExcInfo T × Span) (e : ExcInfo) (sp1 : Span)
    (hw : work (initial_span name parent tid sid sm) = (.error e, sp1))
    (hend : sp1.ended = false) (hok : sp1.status ≠ .ok) :
    (scoped_span name parent tid sid sm work).1 = .error e
      ∧ (scoped_span name parent tid sid sm work).2.events
          = sp1.events ++ [exceptionEvent e]
      ∧ (scoped_span name parent tid sid sm work).2.status = .error
      ∧ (scoped_span name parent tid sid sm work).2.ended = true := by
  have hrun : scoped_span name parent tid sid sm work
      = (.error e, end_span (set_status (record_exception sp1 e) .error)) := by
    simp only [scoped_span, run_scoped, hw]
  have hrec : record_exception sp1 e
      = { sp1 with events := sp1.events ++ [exceptionEvent e] } := by
    simp [record_exception, hend]
  rw [hrun, hrec]
  cases hst : sp1.status
  case unset => simp [set_status, end_span, hend, hst]
  case ok => exact absurd hst hok
  case error => simp [set_status, end_span, hend, hst]

/-- C1, evaluated: scoped_span over a work function that raises
ValueError("boom") on a fresh root span. -/
theorem scoped_span_error_observed_witness :
    boomWork (initial_span "main" none 1 2 true) = (.error boomExc, rootSpanW)
      ∧ rootSpanW.ended = false ∧ rootSpanW.status ≠ .ok
      ∧ (scoped_span "main" none 1 2 true boomWork).1 = .error boomExc
      ∧ (scoped_span "main" none 1 2 true boomWork).2.events
          = rootSpanW.events ++ [exceptionEvent boomExc]
      ∧ (scoped_span "main" none 1 2 true boomWork).2.status = .error
      ∧ (scoped_span "main" none 1 2 true boomWork).2.ended = true := by
  have h := scoped_span_error_observed "main" none 1 2 true boomWork boomExc
    rootSpanW rfl rfl (by decide)
  exact ⟨rfl, rfl, by decide, h.1, h.2.1, h.2.2.1, h.2.2.2⟩

/-- C5: whenever the work run under scoped_span returns normally with value v
— leaving the managed span not yet ended and not marked ERROR — scoped_span
returns exactly v to its caller, the span is ended (exactly this one
transition to ENDED, since the span was not ended before), and the span's
status is OK or UNSET. -/
theorem scoped_span_success_observed {T : Type} (name : String)
    (parent : Option Span) (tid sid : Nat) (sm : Bool)
    (work : Span → Except ExcInfo T × Span) (v : T) (sp1 : Span)
    (hw : work (initial_span name parent tid sid sm) = (.ok v, sp1))
    (hend : sp1.ended = false) (herr : sp1.status ≠ .error) :
    (scoped_span name parent tid sid sm work).1 = .ok v
      ∧ (scoped_span name parent tid sid sm work).2.ended = true
      ∧ ((scoped_span name parent tid sid sm work).2.status = .ok
          ∨ (scoped_span name parent tid sid sm work).2.status = .unset) := by
  have hrun : scoped_span name parent tid sid sm work = (.ok v, end_span sp1) := by
    simp only [scoped_span, run_scoped, hw]
  rw [hrun]
  refine ⟨rfl, by simp [end_span, hend], ?_⟩
  cases hst : sp1.status
  case unset => right; simp [end_span, hend, hst]
  case ok => left; simp [end_span, hend, hst]
  case error => exact absurd hst herr

/-- C5, evaluated: scoped_span over a work function that returns "ok" on a
fresh root span. -/
theorem scoped_span_success_observed_witness :
    okWork (initial_span "main" none 1 2 true) = (.ok "ok", rootSpanW)
      ∧ rootSpanW.ended = false ∧ rootSpanW.status ≠ .error
      ∧ (scoped_span "main" none 1 2 true okWork).1 = .ok "ok"
      ∧ (scoped_span "main" none 1 2 true okWork).2.ended = true
      ∧ ((scoped_span "main" none 1 2 true okWork).2.status = .ok
          ∨ (scoped_span "main" none 1 2 true okWork).2.status = .unset) := by
  have h := scoped_span_success_observed "main" none 1 2 true okWork "ok"
    rootSpanW rfl rfl (by decide)
  exact ⟨rfl, rfl, by decide, h.1, h.2.1, h.2.2⟩

/-- C3: set_status only moves a status out of UNSET (to the requested value),
never changes a non-UNSET status; in particular ERROR is sticky — an ERROR
status survives any later set_status(OK), and a set_status(ERROR) followed by
set_status(OK) is observably the same as the set_status(ERROR) alone. -/
theorem set_status_monotonic (sp : Span) (st : StatusCode) :
    ((set_status sp st).status = sp.status
        ∨ (sp.status = .unset ∧ (set_status sp st).status = st))
      ∧ (sp.status = .error → (set_status sp .ok).status = .error)
      ∧ set_status (set_status sp .error) .ok = set_status sp .error := by
  cases he : sp.ended <;> cases hst : sp.status <;>
    simp_all [set_status]

/-- C3, evaluated: set_status at a concrete open UNSET span and at its ERROR
successor. -/
theorem set_status_monotonic_witness :
    (((set_status rootSpanW .ok).status = rootSpanW.status
          ∨ (rootSpanW.status = .unset ∧ (set_status rootSpanW .ok).status = .ok))
        ∧ (rootSpanW.status = .error → (set_status rootSpanW .ok).status = .error)
        ∧ set_status (set_status rootSpanW .error) .ok = set_status rootSpanW .error)
      ∧ (set_status rootSpanW .error).status = .error :=
  ⟨set_status_monotonic rootSpanW .ok, by decide⟩

/-- C4: a child span created while a parent span P is active carries a parent
reference equal to P's context and the same trace identifier as P. -/
theorem create_child_span_links (name : String) (p : Span) (sid : Nat) :
    (create_child_span name p sid).parent = some p.ctx
      ∧ (create_child_span name p sid).ctx.traceId = p.ctx.traceId :=
  ⟨rfl, rfl⟩

/-- C6: on a span that has been ended, set_attribute and add_event are no-ops
that never raise — the span (in particular its attribute mapping and its
event sequence) is unchanged. -/
theorem ended_span_immutable (sp : Span) (h : sp.ended = true) (key : String)
    (v : Value) (n : String) (attrs : List (String × Value)) :
    set_attribute sp key v = sp ∧ add_event sp n attrs = sp := by
  constructor <;> simp [set_attribute, add_event, h]

/-- C6, evaluated: mutation attempts on a concrete ended span. -/
theorem ended_span_immutable_witness :
    endedSpanW.ended = true
      ∧ set_attribute endedSpanW "k2" (.int 1) = endedSpanW
      ∧ add_event endedSpanW "late" [] = endedSpanW :=
  ⟨rfl, (ended_span_immutable endedSpanW rfl "k2" (.int 1) "late" []).1,
    (ended_span_immutable endedSpanW rfl "k2" (.int 1) "late" []).2⟩

/-- C7: propagate_context is pure — its output is determined by the span's
immutable Span Context alone (two spans with the same context produce equal
header mappings), and it reads nothing that the mutating operations touch:
applying set_attribute, add_event, set_status or end_span first leaves its
output unchanged.  In this embedding it is a function with no state, so it
can mutate neither the span nor any other observable state. -/
theorem propagate_context_pure (sp sp' : Span) (h : sp.ctx = sp'.ctx)
    (key : String) (v : Value) (n : String) (attrs : List (String × Value))
    (st : StatusCode) :
    propagate_context sp = propagate_context sp'
      ∧ propagate_context (set_attribute sp key v) = propagate_context sp
      ∧ propagate_context (add_event sp n attrs) = propagate_context sp
      ∧ propagate_context (set_status sp st) = propagate_context sp
      ∧ propagate_context (end_span sp) = propagate_context sp := by
  refine ⟨by simp [propagate_context, h], ?_, ?_, ?_, ?_⟩ <;>
    cases he : sp.ended <;> cases hst : sp.status <;>
      simp_all [propagate_context, set_attribute, add_event, set_status, end_span]

/-- C7, evaluated: propagate_context at a concrete span, its attribute-renamed
copy sharing the context, and its mutated variants. -/
theorem propagate_context_pure_witness :
    rootSpanW.ctx = endedSpanW.ctx
      ∧ propagate_context rootSpanW = propagate_context endedSpanW
      ∧ propagate_context (set_attribute rootSpanW "k" (.int 3))
          = propagate_context rootSpanW
      ∧ propagate_context (add_event rootSpanW "e" [])
          = propagate_context rootSpanW
      ∧ propagate_context (set_status rootSpanW .ok)
          = propagate_context rootSpanW
      ∧ propagate_context (end_span rootSpanW)
          = propagate_context rootSpanW := by
  have h := propagate_context_pure rootSpanW endedSpanW (by decide)
    "k" (.int 3) "e" [] .ok
  exact ⟨by decide, h.1, h.2.1, h.2.2.1, h.2.2.2.1, h.2.2.2.2⟩

/-- C8: whenever say_hello raises (the HTTP collaborator reports an error),
main still returns normally — the error never propagates out of main — while
the root span records the exception, carries ERROR status, and still receives
the "Finished application" event as its last event. -/
theorem main_error_contained (tid sid1 sid2 : Nat) (e : ExcInfo) :
    (main_run tid sid1 sid2 (.error e)).1 = .ok ()
      ∧ (main_run tid sid1 sid2 (.error e)).2.status = .error
      ∧ (main_run tid sid1 sid2 (.error e)).2.events
          = [⟨"Starting application", []⟩, exceptionEvent e,
             ⟨"Finished application", []⟩]
      ∧ (main_run tid sid1 sid2 (.error e)).2.ended = true :=
  ⟨rfl, rfl, rfl, rfl⟩

/-- C9: in say_hello, the HTTP status-code attribute is set exactly on the
success path (to the response's status code) and is absent on the error path,
while the HTTP method, URL and span.kind attributes are present for every
outcome of the request. -/
theorem say_hello_attribute_frame (parent : Span) (sid : Nat) :
    (∀ http : Except ExcInfo Response,
        lookupAttr (say_hello parent sid http).2 "http.method"
            = some (.str "GET".data)
          ∧ lookupAttr (say_hello parent sid http).2 "http.url"
              = some (.str "https://www.jaegertracing.io/".data)
          ∧ lookupAttr (say_hello parent sid http).2 "span.kind"
              = some (.str "client".data))
      ∧ (∀ r : Response,
          lookupAttr (say_hello parent sid (.ok r)).2 "http.status_code"
            = some (.int r.status_code))
      ∧ (∀ e : ExcInfo,
          lookupAttr (say_hello parent sid (.error e)).2 "http.status_code"
            = none) := by
  refine ⟨?_, fun r => rfl, fun e => rfl⟩
  intro http
  cases http with
  | error e => exact ⟨rfl, rfl, rfl⟩
  | ok r => exact ⟨rfl, rfl, rfl⟩

/-- C10: on every successful say_hello result, the "Request successful" event
main adds carries a "value" attribute equal to the first min(100, length)
characters of the result followed by the literal suffix "..." — the suffix is
appended for every result, also when the result is shorter than 100
characters. -/
theorem main_success_truncates (tid sid1 sid2 : Nat) (r : Response) :
    (main_run tid sid1 sid2 (.ok r)).2.events
      = [⟨"Starting application", []⟩,
         ⟨"Request successful",
           [("value", .str (r.text.take 100 ++ "...".data))]⟩,
         ⟨"Finished application", []⟩]
      ∧ (r.text.take 100).length = min 100 r.text.length :=
  ⟨rfl, by simp⟩

end JaegerExample
